import Mathlib

set_option maxRecDepth 8000

/-!
Shallow embedding of the ai-news-bot pipeline (src/main.py) and verification of
its specification claims.  The program is a sequential pipeline: web search,
per-URL scraping, AI summarization, HTML rendering, SMTP mail.  External
effects (HTTP fetch, generative API, JSON parsing, SMTP) are modelled as
explicit oracle parameters; the glue logic is translated function by function.
-/

namespace NewsBot

/-- Article record built by the pipeline (dict literal at src/main.py lines 91-96). -/
structure Article where
  title : String
  one_liner : String
  summary : String
  source_link : String
  deriving DecidableEq

/-! ## HtmlRenderer: format_news_as_html (src/main.py lines 102-124) -/

/-- Placeholder document returned for an empty article list (line 105). -/
def noArticlesHtml : String :=
  "<h1>Tech & AI Update</h1><p>No new articles found today.</p>"

/-- Head of the document f-string (lines 107-115), up to the interpolated date.
Literal braces of the CSS are written with hex escapes. -/
def htmlHeaderPre : String :=
  "\n    <html><head><style>\n        body \x7b font-family: sans-serif; line-height: 1.6; color: #333; \x7d\n        .container \x7b max-width: 600px; margin: 20px auto; padding: 20px; border: 1px solid #ddd; border-radius: 8px; \x7d\n        h1 \x7b color: #4285F4; \x7d h3 \x7b margin-bottom: 5px; \x7d a \x7b color: #1a73e8; text-decoration: none; \x7d\n        hr \x7b border: 0; border-top: 1px solid #eee; margin: 20px 0; \x7d\n        .one-liner \x7b font-style: italic; color: #555; \x7d\n    </style></head><body><div class=\"container\">\n    <h1>Tech & AI Update: "

/-- Rest of the header f-string after the interpolated date (lines 115-116). -/
def htmlHeaderPost : String := "</h1>\n    "

/-- Closing markup appended after the article loop (line 123). -/
def htmlFooter : String := "</div></body></html>"

/-- Per-article block f-string (lines 118-122): the four fields are
interpolated verbatim between fixed markup pieces. -/
def articleBlock (a : Article) : String :=
  "\n            <h3><a href=\"" ++ a.source_link ++ "\">" ++ a.title ++
    "</a></h3>\n            <p class=\"one-liner\">" ++ a.one_liner ++
    "</p>\n            <p>" ++ a.summary ++ "</p><hr>\n        "

/-- Accumulation of the for-loop at line 117: successive += of blocks. -/
def renderBlocks : List Article → String
  | [] => ""
  | a :: rest => articleBlock a ++ renderBlocks rest

/-- format_news_as_html (lines 102-124).  The current date is a parameter
because the source reads it from the ambient clock. -/
def formatNewsAsHtml (today_date : String) (articles : List Article) : String :=
  match articles with
  | [] => noArticlesHtml
  | _ => htmlHeaderPre ++ today_date ++ htmlHeaderPost ++ renderBlocks articles ++ htmlFooter

/-! ## Summarizer: summarize_text_with_gemini (src/main.py lines 17-62) -/

/-- Parsed JSON object returned by the API; the code never validates that the
two requested fields are present, so each is optional (dict .get at lines 93-94). -/
structure SummaryJson where
  one_liner : Option String
  summary : Option String
  deriving DecidableEq

/-- Outcome of the HTTP round trip inside the try block (lines 53-57): either
an exception (post, raise_for_status, .json(), or indexing), or a response in
which the candidates/parts check either fails (None path, line 59) or yields
the extracted json_string (line 57). -/
inductive NetResult where
  | exn
  | resp (extracted : Option String)
  deriving DecidableEq

/-- Python slice text[:n]: the first n characters. -/
def pySlice (s : String) (n : Nat) : String := String.mk (s.data.take n)

/-- Prompt f-string piece before the interpolated title (lines 25-26). -/
def geminiPromptIntro : String :=
  "\n    You are an expert tech news analyst. Below is the text content from an article titled \""

/-- Prompt f-string piece between the title and the truncated body (lines 26-31). -/
def geminiPromptTask : String :=
  "\".\n    Your task is to provide a concise one-liner and a brief, easy-to-understand summary (2-3 sentences) of this article.\n\n    ARTICLE TEXT:\n    ---\n    "

/-- Prompt f-string piece after the truncated body (lines 32-33). -/
def geminiPromptEnd : String := "\n    ---\n    "

/-- Prompt construction (lines 25-33): the body text is truncated to its first
4000 characters before interpolation. -/
def geminiPrompt (text_content article_title : String) : String :=
  geminiPromptIntro ++ article_title ++ geminiPromptTask ++
    pySlice text_content 4000 ++ geminiPromptEnd

/-- summarize_text_with_gemini (lines 17-62).  Except.error models a raised
exception; Except.ok models a normal return (parsed object or None).  The net
oracle receives the prompt; parseJson models json.loads, whose failure is
caught by the blanket except and turned into None. -/
def summarizeTextWithGemini (apiKey : Option String) (net : String → NetResult)
    (parseJson : String → Option SummaryJson)
    (text_content article_title : String) : Except String (Option SummaryJson) :=
  if apiKey = none ∨ apiKey = some "" then
    Except.error "Error: GEMINI_API_KEY secret not set."
  else
    match net (geminiPrompt text_content article_title) with
    | NetResult.exn => Except.ok none
    | NetResult.resp none => Except.ok none
    | NetResult.resp (some s) => Except.ok (parseJson s)

/-! ## Pipeline driver: get_latest_tech_news_with_scraping (src/main.py lines 64-100) -/

/-- Result of one call to the summarizer as seen by the driver: a raised
exception (caught by the per-URL except), a None return, or a parsed object. -/
inductive SummaryResult where
  | err
  | noData
  | ok (data : SummaryJson)
  deriving DecidableEq

/-- Fetched page as seen after BeautifulSoup parsing: optional first h1 text
and the list of paragraph texts (lines 81-86). -/
structure Page where
  h1 : Option String
  paragraphs : List String
  deriving DecidableEq

/-- Outcome of requests.get plus parsing for one URL: an exception (caught by
the per-URL except at line 97) or a parsed page. -/
inductive FetchResult where
  | err
  | ok (page : Page)
  deriving DecidableEq

/-- Mutable loop state of the driver: accumulated articles and the
urls_processed set (lines 69-70). -/
structure ScrapeState where
  articles : List Article
  urls_processed : List String
  deriving DecidableEq

/-- Python str.strip(): remove leading and trailing whitespace. -/
def pyStrip (s : String) : String :=
  String.mk (((s.data.dropWhile Char.isWhitespace).reverse.dropWhile Char.isWhitespace).reverse)

/-- Title extraction (line 83): first h1 text stripped, with fallback. -/
def pageTitle (page : Page) : String :=
  match page.h1 with
  | some t => pyStrip t
  | none => "No Title Found"

/-- Body extraction (lines 85-86): newline-join of all paragraph texts. -/
def pageText (page : Page) : String := String.intercalate "\n" page.paragraphs

/-- Loop body of the driver for one URL (lines 72-98).  The guard at line 73
skips a URL when the target count is reached or the URL was already processed;
otherwise the URL is recorded as processed, fetched, filtered by the
300-character threshold (line 88), and summarized; exceptions anywhere in the
try block leave the state as recorded. -/
def processUrl (summarize : String → String → SummaryResult)
    (fetch : String → FetchResult) (num_articles : Nat)
    (s : ScrapeState) (url : String) : ScrapeState :=
  if num_articles ≤ s.articles.length ∨ url ∈ s.urls_processed then s
  else
    match fetch url with
    | FetchResult.err => ⟨s.articles, url :: s.urls_processed⟩
    | FetchResult.ok page =>
      if 300 < (pageText page).length then
        match summarize (pageText page) (pageTitle page) with
        | SummaryResult.err => ⟨s.articles, url :: s.urls_processed⟩
        | SummaryResult.noData => ⟨s.articles, url :: s.urls_processed⟩
        | SummaryResult.ok d =>
          ⟨s.articles ++
            [⟨pageTitle page, d.one_liner.getD "", d.summary.getD "Could not summarize.", url⟩],
            url :: s.urls_processed⟩
      else ⟨s.articles, url :: s.urls_processed⟩

/-- get_latest_tech_news_with_scraping (lines 64-100): fold of the loop body
over the URL sequence produced by the search, starting from the empty state. -/
def getLatestTechNews (summarize : String → String → SummaryResult)
    (fetch : String → FetchResult) (urls : List String) (num_articles : Nat) : List Article :=
  (urls.foldl (processUrl summarize fetch num_articles) ⟨[], []⟩).articles

/-- Instrumented loop body that also records which URLs were actually
processed (passed the guard and reached the try block). -/
def processUrlT (summarize : String → String → SummaryResult)
    (fetch : String → FetchResult) (num_articles : Nat)
    (st : ScrapeState × List String) (url : String) : ScrapeState × List String :=
  if num_articles ≤ st.1.articles.length ∨ url ∈ st.1.urls_processed then st
  else ⟨processUrl summarize fetch num_articles st.1 url, st.2 ++ [url]⟩

/-- Trace of the URLs actually processed during a run. -/
def driverTrace (summarize : String → String → SummaryResult)
    (fetch : String → FetchResult) (urls : List String) (num_articles : Nat) : List String :=
  (urls.foldl (processUrlT summarize fetch num_articles) ⟨⟨[], []⟩, []⟩).2

/-! ## Mailer: send_email (src/main.py lines 126-145) -/

/-- Observable network actions of the SMTP session (lines 140-142). -/
inductive SmtpEvent where
  | connect (host : String) (port : Nat)
  | login (user : String) (pwd : String)
  | sendMessage
  deriving DecidableEq

/-- Python falsiness of an optional environment value: absent or empty. -/
def isFalsy : Option String → Bool
  | none => true
  | some s => s == ""

/-- send_email (lines 126-145).  Except.error models the raised ValueError at
line 129; otherwise the function returns normally with the list of network
actions performed, cut short at the stage (0 = connect, 1 = login, 2 = send)
where the oracle says an exception occurred, since that exception is caught
and only logged (lines 144-145). -/
def send_email (sender pwd recipient : Option String) (failAt : Option Nat)
    (subject html_content : String) : Except String (List SmtpEvent) :=
  if isFalsy sender || isFalsy pwd || isFalsy recipient then
    Except.error "Error: Email credentials or recipient not set as secrets."
  else
    Except.ok (([SmtpEvent.connect "smtp.gmail.com" 465,
      SmtpEvent.login (sender.getD "") (pwd.getD ""),
      SmtpEvent.sendMessage]).take (match failAt with | none => 3 | some k => k))

/-! ## Entry point: the __main__ block (src/main.py lines 147-153) -/

/-- Observable outcome of one run: what was rendered and what send_email was
invoked with (subject and HTML body), if anything. -/
structure RunTrace where
  rendered : Option String
  emailed : Option (String × String)
  deriving DecidableEq

/-- The __main__ block: run the driver with the default target of 3 articles;
only when the result is non-empty, render the HTML and invoke the mailer. -/
def mainRun (summarize : String → String → SummaryResult)
    (fetch : String → FetchResult) (urls : List String) (today_date : String) : RunTrace :=
  match getLatestTechNews summarize fetch urls 3 with
  | [] => ⟨none, none⟩
  | a :: rest =>
    let html := formatNewsAsHtml today_date (a :: rest)
    ⟨some html, some ("Your Tech News Update - " ++ today_date, html)⟩

/-! ## An HTML re-parser for the round-trip property

The parser scans for the fixed markup delimiters emitted by the renderer and
recovers, in order, the (title, source_link) pairs of the heading blocks. -/

/-- Split a character list at the first occurrence of the separator, returning
the part before it and the part after it. -/
def splitFirst (sep : List Char) : List Char → Option (List Char × List Char)
  | [] => if sep.isPrefixOf ([] : List Char) then some ([], []) else none
  | c :: cs =>
    if sep.isPrefixOf (c :: cs) then some ([], (c :: cs).drop sep.length)
    else (splitFirst sep cs).map (fun p => (c :: p.1, p.2))

/-- Delimiter opening a heading block, up to the href value. -/
def markerA : List Char := "<h3><a href=\"".data

/-- Delimiter ending the href value and opening the anchor text. -/
def markerB : List Char := "\">".data

/-- Delimiter closing the anchor text. -/
def markerC : List Char := "</a>".data

/-- Fuelled scan: repeatedly extract (title, link) from successive heading
blocks.  The fuel only needs to exceed the number of blocks. -/
def extractPairsAux : Nat → List Char → List (List Char × List Char)
  | 0, _ => []
  | n + 1, l =>
    match splitFirst markerA l with
    | none => []
    | some (_, r1) =>
      match splitFirst markerB r1 with
      | none => []
      | some (link, r2) =>
        match splitFirst markerC r2 with
        | none => []
        | some (title, r3) => (title, link) :: extractPairsAux n r3

/-- Re-parse an HTML document into its ordered (title, source_link) pairs. -/
def extractPairs (html : String) : List (String × String) :=
  (extractPairsAux html.data.length html.data).map (fun p => (String.mk p.1, String.mk p.2))

/-- No occurrence of sep starts inside x, whatever follows x: every suffix of
x neither begins sep nor is begun by it. -/
def safeNo (sep x : List Char) : Prop :=
  ∀ i, i < x.length → ¬ (x.drop i <+: sep) ∧ ¬ (sep <+: x.drop i)

instance instDecidableSafeNo (sep x : List Char) : Decidable (safeNo sep x) := by
  unfold safeNo; infer_instance

/-- Field strings that contain neither a double quote nor an angle bracket
opener; such fields cannot interfere with the markup delimiters. -/
def benignStr (s : String) : Prop := ∀ c ∈ s.data, c ≠ '<' ∧ c ≠ '"'

instance instDecidableBenignStr (s : String) : Decidable (benignStr s) := by
  unfold benignStr; infer_instance

/-- All four fields of the article are benign. -/
def benignArticle (a : Article) : Prop :=
  benignStr a.title ∧ benignStr a.one_liner ∧ benignStr a.summary ∧ benignStr a.source_link

instance instDecidableBenignArticle (a : Article) : Decidable (benignArticle a) := by
  unfold benignArticle; infer_instance

/-- Number of positions of x at which pat occurs (occurrences may overlap). -/
def countOccur (pat : List Char) : List Char → Nat
  | [] => if pat.isPrefixOf ([] : List Char) then 1 else 0
  | c :: cs => (if pat.isPrefixOf (c :: cs) then 1 else 0) + countOccur pat cs

/-- Data-list views of the fixed markup pieces surrounding the interpolated
fields inside one article block. -/
def blockIndentD : List Char := "\n            ".data

/-- Markup between the closing anchor and the one-liner field. -/
def tail1D : List Char := "</h3>\n            <p class=\"one-liner\">".data

/-- Markup between the one-liner and the summary field. -/
def tail2D : List Char := "</p>\n            <p>".data

/-- Markup after the summary field, closing one block. -/
def tail3D : List Char := "</p><hr>\n        ".data

/-- Data-list view of the document footer. -/
def footerD : List Char := "</div></body></html>".data

end NewsBot

namespace NewsBot

/-! ## Theorems about the renderer on empty input -/

/-- C5: the renderer applied to the empty article sequence returns the fixed
placeholder document, which contains the literal string
"No new articles found today." and contains no article heading block. -/
theorem claim_C5_empty_render (today : String) :
    formatNewsAsHtml today [] = noArticlesHtml ∧
    ("No new articles found today.".data <:+: (formatNewsAsHtml today []).data) ∧
    ¬ ("<h3>".data <:+: (formatNewsAsHtml today []).data) := by
  have h : formatNewsAsHtml today [] = noArticlesHtml := rfl
  refine ⟨h, ?_, ?_⟩ <;> rw [h] <;> decide

/-! ## Theorems about the mailer configuration guard -/

/-- C6: when any of sender address, sender credential, or recipient address is
unset, send_email raises the configuration error and performs no network
action (no SMTP event can be produced, since events exist only on the normal
return path). -/
theorem claim_C6_mailer_guard (sender pwd recipient : Option String)
    (failAt : Option Nat) (subject html_content : String)
    (h : sender = none ∨ pwd = none ∨ recipient = none) :
    send_email sender pwd recipient failAt subject html_content =
      Except.error "Error: Email credentials or recipient not set as secrets." ∧
    ∀ events, send_email sender pwd recipient failAt subject html_content ≠
      Except.ok events := by
  have hf : (isFalsy sender || isFalsy pwd || isFalsy recipient) = true := by
    rcases h with h | h | h <;> subst h <;> simp [isFalsy]
  constructor
  · simp [send_email, hf]
  · intro events
    simp [send_email, hf]

/-- Witness for C6: recipient unset, sender and credential set. -/
theorem claim_C6_mailer_guard_witness :
    send_email (some "sender@example.com") (some "app-password") none none
      "Subject" "<p>x</p>" =
      Except.error "Error: Email credentials or recipient not set as secrets." ∧
    ∀ events, send_email (some "sender@example.com") (some "app-password") none none
      "Subject" "<p>x</p>" ≠ Except.ok events :=
  claim_C6_mailer_guard (some "sender@example.com") (some "app-password") none none
    "Subject" "<p>x</p>" (Or.inr (Or.inr rfl))

/-! ## Theorems about the prompt truncation -/

/-- C9: the prompt contains exactly the first 4000 characters of the body
text: the interpolated slice is a prefix of the body, is at most 4000
characters long, and equals the whole body when the body already fits. -/
theorem claim_C9_prompt_truncation (text_content article_title : String) :
    geminiPrompt text_content article_title =
      geminiPromptIntro ++ article_title ++ geminiPromptTask ++
        pySlice text_content 4000 ++ geminiPromptEnd ∧
    ((pySlice text_content 4000).data <+: text_content.data) ∧
    (pySlice text_content 4000).length ≤ 4000 ∧
    (text_content.length ≤ 4000 → pySlice text_content 4000 = text_content) := by
  refine ⟨rfl, ?_, ?_, ?_⟩
  · exact List.take_prefix 4000 text_content.data
  · show (text_content.data.take 4000).length ≤ 4000
    rw [ List.length_take]
    exact Nat.min_le_left _ _
  · intro h
    show String.mk (text_content.data.take 4000) = text_content
    rw [ List.take_of_length_le h]

/-- Witness for C9 at a short concrete body. -/
theorem claim_C9_prompt_truncation_witness :
    pySlice "short body" 4000 = "short body" :=
  (claim_C9_prompt_truncation "short body" "Title").2.2.2 (by decide)

/-! ## Theorems about the content-length threshold -/

/-- C2 is false as stated: a body of exactly 300 characters is not shorter
than 300, yet the scraper rejects it (the code accepts only strictly more
than 300 characters). -/
theorem claim_C2_counterexample :
    ¬ ((getLatestTechNews (fun _ _ => SummaryResult.ok ⟨some "o", some "s"⟩)
        (fun _ => FetchResult.ok ⟨some "T", [String.mk (List.replicate 300 'a')]⟩)
        ["u"] 3 = []) ↔
      (pageText ⟨some "T", [String.mk (List.replicate 300 'a')]⟩).length < 300) := by
  decide

/-- C2 (amended): the scraper rejects a page exactly when the newline-joined
paragraph text has length at most 300, and otherwise proceeds to
summarization, appending the summarized article; in particular a
250-character body yields no article and a 350-character body is
summarized. -/
theorem claim_C2_threshold :
    (∀ (page : Page) (url : String) (d : SummaryJson),
      getLatestTechNews (fun _ _ => SummaryResult.ok d) (fun _ => FetchResult.ok page)
        [url] 3 =
        if 300 < (pageText page).length then
          [⟨pageTitle page, d.one_liner.getD "", d.summary.getD "Could not summarize.", url⟩]
        else []) ∧
    (getLatestTechNews (fun _ _ => SummaryResult.ok ⟨some "o", some "s"⟩)
      (fun _ => FetchResult.ok ⟨some "T", [String.mk (List.replicate 250 'a')]⟩)
      ["u"] 3 = []) ∧
    (getLatestTechNews (fun _ _ => SummaryResult.ok ⟨some "o", some "s"⟩)
      (fun _ => FetchResult.ok ⟨some "T", [String.mk (List.replicate 350 'a')]⟩)
      ["u"] 3 = [⟨"T", "o", "s", "u"⟩]) := by
  refine ⟨?_, by decide, by decide⟩
  intro page url d
  unfold getLatestTechNews
  simp only [List.foldl]
  unfold processUrl
  rw [if_neg (by simp)]
  dsimp only
  split <;> simp

/-! ## Theorems about the summarizer -/

/-- C3 is false as stated: with the API key unset, the summarizer raises a
ValueError instead of returning nothing. -/
theorem claim_C3_counterexample :
    summarizeTextWithGemini none (fun _ => NetResult.exn) (fun _ => none)
      "body text" "Title" =
      Except.error "Error: GEMINI_API_KEY secret not set." := by
  simp [summarizeTextWithGemini]

/-- C3 (amended): when the API key is set and non-empty, the summarizer never
raises: it returns normally with either nothing or the object parsed from the
extracted response text; when the key is unset or empty it raises the
configuration ValueError. -/
theorem claim_C3_summarizer_total (apiKey : Option String) (net : String → NetResult)
    (parseJson : String → Option SummaryJson) (text_content article_title : String) :
    (¬ (apiKey = none ∨ apiKey = some "") →
      ∃ r, summarizeTextWithGemini apiKey net parseJson text_content article_title =
          Except.ok r ∧
        (r = none ∨ ∃ s, net (geminiPrompt text_content article_title) =
          NetResult.resp (some s) ∧ r = parseJson s)) ∧
    ((apiKey = none ∨ apiKey = some "") →
      summarizeTextWithGemini apiKey net parseJson text_content article_title =
        Except.error "Error: GEMINI_API_KEY secret not set.") := by
  constructor
  · intro h
    unfold summarizeTextWithGemini
    rw [if_neg h]
    cases hnet : net (geminiPrompt text_content article_title) with
    | exn => exact ⟨none, rfl, Or.inl rfl⟩
    | resp e =>
      cases e with
      | none => exact ⟨none, rfl, Or.inl rfl⟩
      | some s => exact ⟨parseJson s, rfl, Or.inr ⟨s, rfl, rfl⟩⟩
  · intro h
    unfold summarizeTextWithGemini
    rw [if_pos h]

/-- Witness for C3 (amended) with a set key and a failing network call. -/
theorem claim_C3_summarizer_total_witness :
    ∃ r, summarizeTextWithGemini (some "api-key") (fun _ => NetResult.exn)
        (fun _ => none) "body" "Title" = Except.ok r ∧
      (r = none ∨ ∃ s, (fun _ => NetResult.exn) (geminiPrompt "body" "Title") =
        NetResult.resp (some s) ∧ r = (fun _ => none : String → Option SummaryJson) s) :=
  (claim_C3_summarizer_total (some "api-key") (fun _ => NetResult.exn)
    (fun _ => none) "body" "Title").1 (by decide)

end NewsBot

namespace NewsBot

/-! ## Theorems about the driver loop -/

/-- Once the target count is reached, the loop body leaves the state untouched. -/
theorem processUrl_stop (su : String → String → SummaryResult) (fe : String → FetchResult)
    (n : Nat) (st : ScrapeState) (url : String) (h : n ≤ st.articles.length) :
    processUrl su fe n st url = st := by
  unfold processUrl
  rw [if_pos (Or.inl h)]

/-- One loop step adds at most one article. -/
theorem processUrl_articles_le (su : String → String → SummaryResult)
    (fe : String → FetchResult) (n : Nat) (st : ScrapeState) (url : String) :
    (processUrl su fe n st url).articles.length ≤ st.articles.length + 1 := by
  unfold processUrl
  split
  · exact Nat.le_succ _
  · split
    · exact Nat.le_succ _
    · split
      · split
        · exact Nat.le_succ _
        · exact Nat.le_succ _
        · simp
      · exact Nat.le_succ _

/-- When the guard passes, the step records the URL as processed. -/
theorem processUrl_processed (su : String → String → SummaryResult)
    (fe : String → FetchResult) (n : Nat) (st : ScrapeState) (url : String)
    (h : ¬ (n ≤ st.articles.length ∨ url ∈ st.urls_processed)) :
    (processUrl su fe n st url).urls_processed = url :: st.urls_processed := by
  unfold processUrl
  rw [if_neg h]
  split
  · rfl
  · split
    · split <;> rfl
    · rfl

/-- Invariant: the accepted-article count never exceeds the target count. -/
theorem driver_articles_le (su : String → String → SummaryResult)
    (fe : String → FetchResult) (n : Nat) :
    ∀ (urls : List String) (st : ScrapeState), st.articles.length ≤ n →
      (List.foldl (processUrl su fe n) st urls).articles.length ≤ n := by
  intro urls
  induction urls with
  | nil => intro st h; exact h
  | cons u rest ih =>
    intro st h
    simp only [List.foldl]
    apply ih
    rcases Nat.lt_or_ge st.articles.length n with hlt | hge
    · have := processUrl_articles_le su fe n st u
      omega
    · rw [processUrl_stop su fe n st u hge]
      exact h

/-- Invariant: the trace of processed URLs has no duplicates (each trace entry
is already in the urls_processed set when recorded). -/
theorem driver_trace_nodup (su : String → String → SummaryResult)
    (fe : String → FetchResult) (n : Nat) :
    ∀ (urls : List String) (st : ScrapeState) (tr : List String),
      tr.Nodup → (∀ u ∈ tr, u ∈ st.urls_processed) →
      ((List.foldl (processUrlT su fe n) ⟨st, tr⟩ urls).2).Nodup := by
  intro urls
  induction urls with
  | nil => intro st tr h1 _; exact h1
  | cons u rest ih =>
    intro st tr h1 h2
    simp only [List.foldl]
    by_cases hcond : n ≤ st.articles.length ∨ u ∈ st.urls_processed
    · have he : processUrlT su fe n ⟨st, tr⟩ u = ⟨st, tr⟩ := by
        unfold processUrlT
        rw [if_pos hcond]
      rw [he]
      exact ih st tr h1 h2
    · have he : processUrlT su fe n ⟨st, tr⟩ u = ⟨processUrl su fe n st u, tr ++ [u]⟩ := by
        unfold processUrlT
        rw [if_neg hcond]
      rw [he]
      have hu1 : u ∉ st.urls_processed := fun hm => hcond (Or.inr hm)
      have hu2 : u ∉ tr := fun hm => hu1 (h2 u hm)
      apply ih
      · rw [ List.nodup_append]
        refine ⟨h1, List.nodup_singleton u, ?_⟩
        intro x hx hxu
        exact hu2 (( List.mem_singleton.mp hxu) ▸ hx)
      · intro v hv
        rw [processUrl_processed su fe n st u hcond]
        rcases List.mem_append.mp hv with hv | hv
        · exact List.mem_cons_of_mem _ (h2 v hv)
        · rw [ List.mem_singleton] at hv
          subst hv
          exact List.mem_cons_self _ _

/-- C4: the driver accumulates at most the target count of articles, processes
each distinct URL at most once (the trace of URLs that reach the fetch step
has no duplicates), and freezes the state entirely once the target count is
reached; exhaustion of the URL sequence ends the fold by construction. -/
theorem claim_C4_driver_bounds :
    (∀ (su : String → String → SummaryResult) (fe : String → FetchResult)
      (urls : List String) (n : Nat), (getLatestTechNews su fe urls n).length ≤ n) ∧
    (∀ (su : String → String → SummaryResult) (fe : String → FetchResult)
      (urls : List String) (n : Nat), (driverTrace su fe urls n).Nodup) ∧
    (∀ (su : String → String → SummaryResult) (fe : String → FetchResult)
      (n : Nat) (st : ScrapeState) (url : String), n ≤ st.articles.length →
      processUrl su fe n st url = st) := by
  refine ⟨?_, ?_, ?_⟩
  · intro su fe urls n
    exact driver_articles_le su fe n urls ⟨[], []⟩ (by simp)
  · intro su fe urls n
    exact driver_trace_nodup su fe n urls ⟨[], []⟩ [] List.nodup_nil (by simp)
  · intro su fe n st url h
    exact processUrl_stop su fe n st url h

/-- Witness for C4 at a concrete URL list with a duplicate and target 3. -/
theorem claim_C4_driver_bounds_witness :
    (getLatestTechNews (fun _ _ => SummaryResult.noData) (fun _ => FetchResult.err)
      ["a", "b", "a"] 3).length ≤ 3 ∧
    (driverTrace (fun _ _ => SummaryResult.noData) (fun _ => FetchResult.err)
      ["a", "b", "a"] 3).Nodup ∧
    processUrl (fun _ _ => SummaryResult.noData) (fun _ => FetchResult.err) 0
      ⟨[], []⟩ "u" = ⟨[], []⟩ :=
  ⟨claim_C4_driver_bounds.1 _ _ ["a", "b", "a"] 3,
   claim_C4_driver_bounds.2.1 _ _ ["a", "b", "a"] 3,
   claim_C4_driver_bounds.2.2 _ _ 0 ⟨[], []⟩ "u" (by decide)⟩

/-- C8: an exception while processing a URL (fetch or parse modelled as the
fetch oracle failing, summarize modelled as the summarizer oracle raising) is
contained: the state keeps its articles, and the fold continues with the
remaining URLs. -/
theorem claim_C8_exception_containment (su : String → String → SummaryResult)
    (fe : String → FetchResult) (n : Nat) (st : ScrapeState) (url : String)
    (rest : List String)
    (h : fe url = FetchResult.err ∨
      ∀ page, fe url = FetchResult.ok page →
        su (pageText page) (pageTitle page) = SummaryResult.err) :
    (processUrl su fe n st url).articles = st.articles ∧
    List.foldl (processUrl su fe n) st (url :: rest) =
      List.foldl (processUrl su fe n) (processUrl su fe n st url) rest := by
  refine ⟨?_, rfl⟩
  unfold processUrl
  split
  · rfl
  · cases hfe : fe url with
    | err => rfl
    | ok page =>
      rcases h with h | h
      · rw [hfe] at h
        exact absurd h (by simp)
      · dsimp only
        split
        · rw [h page hfe]
        · rfl

/-- Witness for C8: a failing fetch leaves the article list unchanged and the
run continues. -/
theorem claim_C8_exception_containment_witness :
    (processUrl (fun _ _ => SummaryResult.noData) (fun _ => FetchResult.err) 3
      ⟨[], []⟩ "u").articles = (⟨[], []⟩ : ScrapeState).articles ∧
    List.foldl (processUrl (fun _ _ => SummaryResult.noData) (fun _ => FetchResult.err) 3)
      ⟨[], []⟩ ["u", "v"] =
      List.foldl (processUrl (fun _ _ => SummaryResult.noData) (fun _ => FetchResult.err) 3)
        (processUrl (fun _ _ => SummaryResult.noData) (fun _ => FetchResult.err) 3
          ⟨[], []⟩ "u") ["v"] :=
  claim_C8_exception_containment _ _ 3 ⟨[], []⟩ "u" ["v"] (Or.inl rfl)

/-! ## Theorems about the entry point -/

/-- C1 is false as stated: when the pipeline produces zero articles, the run
renders nothing at all (the renderer is never invoked), rather than rendering
the placeholder document. -/
theorem claim_C1_counterexample :
    getLatestTechNews (fun _ _ => SummaryResult.err) (fun _ => FetchResult.err)
      ["u"] 3 = [] ∧
    (mainRun (fun _ _ => SummaryResult.err) (fun _ => FetchResult.err)
      ["u"] "June 01, 2025").rendered = none ∧
    (mainRun (fun _ _ => SummaryResult.err) (fun _ => FetchResult.err)
      ["u"] "June 01, 2025").rendered ≠ some (formatNewsAsHtml "June 01, 2025" []) := by
  refine ⟨by decide, by decide, by decide⟩

/-- C1 (amended): an email is sent only when the pipeline produced at least
one article; with zero articles the run renders nothing and sends nothing
(terminating normally), while the renderer itself maps the empty list to the
placeholder document. -/
theorem claim_C1_main_gating (su : String → String → SummaryResult)
    (fe : String → FetchResult) (urls : List String) (today_date : String) :
    ((mainRun su fe urls today_date).emailed ≠ none →
      getLatestTechNews su fe urls 3 ≠ []) ∧
    (getLatestTechNews su fe urls 3 = [] →
      mainRun su fe urls today_date = ⟨none, none⟩) ∧
    (∀ a rest, getLatestTechNews su fe urls 3 = a :: rest →
      mainRun su fe urls today_date =
        ⟨some (formatNewsAsHtml today_date (a :: rest)),
          some ("Your Tech News Update - " ++ today_date,
            formatNewsAsHtml today_date (a :: rest))⟩) ∧
    formatNewsAsHtml today_date [] = noArticlesHtml := by
  refine ⟨?_, ?_, ?_, rfl⟩
  · intro hne hnil
    apply hne
    unfold mainRun
    rw [hnil]
  · intro hnil
    unfold mainRun
    rw [hnil]
  · intro a rest hcons
    unfold mainRun
    rw [hcons]

/-- Witness for C1 (amended): a run that finds nothing neither renders nor
sends. -/
theorem claim_C1_main_gating_witness :
    mainRun (fun _ _ => SummaryResult.err) (fun _ => FetchResult.err) [] "D" =
      ⟨none, none⟩ :=
  (claim_C1_main_gating (fun _ _ => SummaryResult.err) (fun _ => FetchResult.err)
    [] "D").2.1 (by decide)

end NewsBot

namespace NewsBot

/-! ## Theorems about verbatim interpolation -/

/-- Block concatenation distributes over list append. -/
theorem renderBlocks_append (xs ys : List Article) :
    renderBlocks (xs ++ ys) = renderBlocks xs ++ renderBlocks ys := by
  induction xs with
  | nil => simp [renderBlocks]
  | cons a rest ih => simp [renderBlocks, ih, String.append_assoc]

/-- A string equal to x ++ f ++ y contains f verbatim at the data level. -/
theorem data_infix_of_split (x y f h : String) (he : h = x ++ f ++ y) :
    f.data <:+: h.data := by
  subst he
  exact ⟨x.data, y.data, by simp [String.data_append]⟩

/-- C10: the renderer interpolates every field of every article verbatim into
the document, with no HTML escaping: the exact character sequence of each
title, one-liner, summary, and source link occurs in the output. -/
theorem claim_C10_verbatim_fields (today_date : String) (articles : List Article)
    (a : Article) (ha : a ∈ articles) :
    a.title.data <:+: (formatNewsAsHtml today_date articles).data ∧
    a.one_liner.data <:+: (formatNewsAsHtml today_date articles).data ∧
    a.summary.data <:+: (formatNewsAsHtml today_date articles).data ∧
    a.source_link.data <:+: (formatNewsAsHtml today_date articles).data := by
  obtain ⟨s, t, rfl⟩ := List.append_of_mem ha
  have hfmt : formatNewsAsHtml today_date (s ++ a :: t) =
      htmlHeaderPre ++ today_date ++ htmlHeaderPost ++
        renderBlocks (s ++ a :: t) ++ htmlFooter := by
    cases s <;> rfl
  refine ⟨?_, ?_, ?_, ?_⟩
  · apply data_infix_of_split
      (htmlHeaderPre ++ today_date ++ htmlHeaderPost ++ renderBlocks s ++
        ("\n            <h3><a href=\"" ++ a.source_link ++ "\">"))
      ("</a></h3>\n            <p class=\"one-liner\">" ++ a.one_liner ++
        "</p>\n            <p>" ++ a.summary ++ "</p><hr>\n        " ++
        renderBlocks t ++ htmlFooter)
    rw [hfmt, renderBlocks_append]
    simp [renderBlocks, articleBlock, String.append_assoc]
  · apply data_infix_of_split
      (htmlHeaderPre ++ today_date ++ htmlHeaderPost ++ renderBlocks s ++
        ("\n            <h3><a href=\"" ++ a.source_link ++ "\">" ++ a.title ++
          "</a></h3>\n            <p class=\"one-liner\">"))
      ("</p>\n            <p>" ++ a.summary ++ "</p><hr>\n        " ++
        renderBlocks t ++ htmlFooter)
    rw [hfmt, renderBlocks_append]
    simp [renderBlocks, articleBlock, String.append_assoc]
  · apply data_infix_of_split
      (htmlHeaderPre ++ today_date ++ htmlHeaderPost ++ renderBlocks s ++
        ("\n            <h3><a href=\"" ++ a.source_link ++ "\">" ++ a.title ++
          "</a></h3>\n            <p class=\"one-liner\">" ++ a.one_liner ++
          "</p>\n            <p>"))
      ("</p><hr>\n        " ++ renderBlocks t ++ htmlFooter)
    rw [hfmt, renderBlocks_append]
    simp [renderBlocks, articleBlock, String.append_assoc]
  · apply data_infix_of_split
      (htmlHeaderPre ++ today_date ++ htmlHeaderPost ++ renderBlocks s ++
        "\n            <h3><a href=\"")
      ("\">" ++ a.title ++ "</a></h3>\n            <p class=\"one-liner\">" ++
        a.one_liner ++ "</p>\n            <p>" ++ a.summary ++
        "</p><hr>\n        " ++ renderBlocks t ++ htmlFooter)
    rw [hfmt, renderBlocks_append]
    simp [renderBlocks, articleBlock, String.append_assoc]

/-- Witness for C10 at an article whose fields contain markup. -/
theorem claim_C10_verbatim_fields_witness :
    (Article.mk "<b>T</b>" "O<i>x</i>" "S<u>y</u>" "http://x?a=1&b=2").title.data <:+:
      (formatNewsAsHtml "June 01, 2025"
        [Article.mk "<b>T</b>" "O<i>x</i>" "S<u>y</u>" "http://x?a=1&b=2"]).data ∧
    (Article.mk "<b>T</b>" "O<i>x</i>" "S<u>y</u>" "http://x?a=1&b=2").one_liner.data <:+:
      (formatNewsAsHtml "June 01, 2025"
        [Article.mk "<b>T</b>" "O<i>x</i>" "S<u>y</u>" "http://x?a=1&b=2"]).data ∧
    (Article.mk "<b>T</b>" "O<i>x</i>" "S<u>y</u>" "http://x?a=1&b=2").summary.data <:+:
      (formatNewsAsHtml "June 01, 2025"
        [Article.mk "<b>T</b>" "O<i>x</i>" "S<u>y</u>" "http://x?a=1&b=2"]).data ∧
    (Article.mk "<b>T</b>" "O<i>x</i>" "S<u>y</u>" "http://x?a=1&b=2").source_link.data <:+:
      (formatNewsAsHtml "June 01, 2025"
        [Article.mk "<b>T</b>" "O<i>x</i>" "S<u>y</u>" "http://x?a=1&b=2"]).data :=
  claim_C10_verbatim_fields "June 01, 2025"
    [Article.mk "<b>T</b>" "O<i>x</i>" "S<u>y</u>" "http://x?a=1&b=2"]
    (Article.mk "<b>T</b>" "O<i>x</i>" "S<u>y</u>" "http://x?a=1&b=2") (by decide)

end NewsBot

namespace NewsBot

/-! ## Lemmas about splitFirst and occurrence-free strings -/

/-- Tail of a safe list is safe. -/
theorem safeNo_cons {sep : List Char} {c : Char} {x : List Char}
    (h : safeNo sep (c :: x)) : safeNo sep x := by
  intro i hi
  have h2 := h (i + 1) (by simpa using Nat.succ_lt_succ hi)
  simpa using h2

/-- Head position of a safe nonempty list. -/
theorem safeNo_head {sep : List Char} {c : Char} {x : List Char}
    (h : safeNo sep (c :: x)) : ¬ ((c :: x) <+: sep) ∧ ¬ (sep <+: c :: x) := by
  have h0 := h 0 (by simp)
  simpa using h0

/-- Any prefix of an appended list is comparable with the left part. -/
theorem prefix_append_cases {sep u y : List Char} (h : sep <+: u ++ y) :
    sep <+: u ∨ u <+: sep :=
  List.prefix_or_prefix_of_prefix h (List.prefix_append u y)

/-- An incomparable left part blocks any prefix of the appended list. -/
theorem not_prefix_append {sep u : List Char} (h1 : ¬ (u <+: sep))
    (h2 : ¬ (sep <+: u)) (y : List Char) : ¬ (sep <+: u ++ y) :=
  fun h => (prefix_append_cases h).elim h2 h1

/-- Safety is preserved by concatenation. -/
theorem safeNo_append {sep x y : List Char} (hx : safeNo sep x) (hy : safeNo sep y) :
    safeNo sep (x ++ y) := by
  intro i hi
  rcases Nat.lt_or_ge i x.length with h | h
  · have hd : (x ++ y).drop i = x.drop i ++ y := by
      rw [ List.drop_append_eq_append_drop, Nat.sub_eq_zero_of_le (Nat.le_of_lt h),
        List.drop_zero]
    rw [hd]
    obtain ⟨ha, hb⟩ := hx i h
    constructor
    · intro hp
      exact ha ((List.prefix_append (x.drop i) y).trans hp)
    · exact not_prefix_append ha hb y
  · have hd : (x ++ y).drop i = y.drop (i - x.length) := by
      rw [ List.drop_append_eq_append_drop, List.drop_eq_nil_of_le h, List.nil_append]
    rw [hd]
    apply hy
    rw [List.length_append] at hi
    omega

/-- A safe list contains no occurrence of the separator at all. -/
theorem splitFirst_none {sep : List Char} (hsep : sep ≠ []) :
    ∀ {x : List Char}, safeNo sep x → splitFirst sep x = none := by
  intro x
  induction x with
  | nil =>
    intro _
    unfold splitFirst
    rw [if_neg]
    intro hb
    have := ( List.isPrefixOf_iff_prefix).mp hb
    exact hsep (List.prefix_nil.mp this)
  | cons c cs ih =>
    intro h
    unfold splitFirst
    rw [if_neg, ih (safeNo_cons h)]
    · rfl
    · intro hb
      exact (safeNo_head h).2 (( List.isPrefixOf_iff_prefix).mp hb)

/-- Defining equation of splitFirst on a cons cell. -/
theorem splitFirst_cons_eq (sep : List Char) (c : Char) (cs : List Char) :
    splitFirst sep (c :: cs) =
      if sep.isPrefixOf (c :: cs) then some ([], (c :: cs).drop sep.length)
      else (splitFirst sep cs).map (fun p => (c :: p.1, p.2)) := rfl

/-- Scanning past a safe left part: the first occurrence lies in the right
part, and the left part is prepended to the before-component. -/
theorem splitFirst_skip {sep x : List Char} (h : safeNo sep x) (y : List Char) :
    splitFirst sep (x ++ y) = (splitFirst sep y).map (fun p => (x ++ p.1, p.2)) := by
  induction x with
  | nil =>
    cases hy : splitFirst sep y <;> simp [hy]
  | cons c cs ih =>
    have hh := safeNo_head h
    show splitFirst sep (c :: (cs ++ y)) = _
    rw [splitFirst_cons_eq, if_neg, ih (safeNo_cons h)]
    · cases hy : splitFirst sep y <;> simp [hy]
    · intro hb
      have hp := ( List.isPrefixOf_iff_prefix).mp hb
      exact not_prefix_append hh.1 hh.2 y hp

/-- The separator at the front is found immediately. -/
theorem splitFirst_here (sep y : List Char) :
    splitFirst sep (sep ++ y) = some ([], y) := by
  cases sep with
  | nil =>
    cases y with
    | nil => rfl
    | cons c cs =>
      unfold splitFirst
      rw [if_pos]
      · simp
      · simp [ List.isPrefixOf_iff_prefix]
  | cons a as =>
    show splitFirst (a :: as) (a :: (as ++ y)) = _
    unfold splitFirst
    rw [if_pos]
    · have : (a :: (as ++ y)).drop (a :: as).length = y := List.drop_left (a :: as) y
      rw [this]
    · rw [ List.isPrefixOf_iff_prefix]
      exact List.prefix_append (a :: as) y

/-- Combined scan: safe part, then the separator, then the rest. -/
theorem splitFirst_pre {sep x : List Char} (h : safeNo sep x) (y : List Char) :
    splitFirst sep (x ++ (sep ++ y)) = some (x, y) := by
  rw [splitFirst_skip h, splitFirst_here]
  simp

/-- Two-part safe prefix variant in right-associated form. -/
theorem splitFirst_pre2 {sep x z : List Char} (hx : safeNo sep x) (hz : safeNo sep z)
    (y : List Char) : splitFirst sep (x ++ (z ++ (sep ++ y))) = some (x ++ z, y) := by
  rw [← List.append_assoc x z, splitFirst_pre (safeNo_append hx hz)]

/-- Lists whose members all differ from the head of the separator are safe. -/
theorem safeNo_of_forall_ne {c0 : Char} {sep x : List Char}
    (h : ∀ c ∈ x, c ≠ c0) : safeNo (c0 :: sep) x := by
  intro i hi
  have hx : x.drop i = x.get ⟨i, hi⟩ :: x.drop (i + 1) := List.drop_eq_getElem_cons hi
  have hne := h _ (x.get_mem i hi)
  rw [hx]
  constructor
  · intro hp
    rw [ List.cons_prefix_cons] at hp
    exact hne hp.1
  · intro hp
    rw [ List.cons_prefix_cons] at hp
    exact hne hp.1.symm

/-- Benign strings are safe for the opening-heading delimiter. -/
theorem benign_safeNo_markerA {s : String} (h : benignStr s) : safeNo markerA s.data := by
  have hA : markerA = '<' :: "h3><a href=\"".data := rfl
  rw [hA]
  exact safeNo_of_forall_ne (fun c hc => (h c hc).1)

/-- Benign strings are safe for the href-closing delimiter. -/
theorem benign_safeNo_markerB {s : String} (h : benignStr s) : safeNo markerB s.data := by
  have hB : markerB = '"' :: ">".data := rfl
  rw [hB]
  exact safeNo_of_forall_ne (fun c hc => (h c hc).2)

/-- Benign strings are safe for the anchor-closing delimiter. -/
theorem benign_safeNo_markerC {s : String} (h : benignStr s) : safeNo markerC s.data := by
  have hC : markerC = '<' :: "/a>".data := rfl
  rw [hC]
  exact safeNo_of_forall_ne (fun c hc => (h c hc).1)

end NewsBot

namespace NewsBot

/-! ## The round-trip theorem for the renderer -/

/-- Data-level decomposition of one rendered article block. -/
theorem articleBlock_data (a : Article) :
    (articleBlock a).data =
      blockIndentD ++ (markerA ++ (a.source_link.data ++ (markerB ++ (a.title.data ++
        (markerC ++ (tail1D ++ (a.one_liner.data ++ (tail2D ++
          (a.summary.data ++ tail3D))))))))) := by
  simp only [articleBlock, String.data_append, blockIndentD, markerA, markerB, markerC,
    tail1D, tail2D, tail3D, List.append_assoc, List.cons_append, List.nil_append]

/-- Data-level cons equation for block concatenation. -/
theorem renderBlocks_data_cons (a : Article) (rest : List Article) :
    (renderBlocks (a :: rest)).data = (articleBlock a).data ++ (renderBlocks rest).data := by
  simp [renderBlocks, String.data_append]

/-- The fixed markup pieces contain no start of the heading delimiter. -/
theorem safeA_indentD : safeNo markerA blockIndentD := by decide

/-- Markup between anchor close and one-liner is safe. -/
theorem safeA_tail1D : safeNo markerA tail1D := by decide

/-- Markup between one-liner and summary is safe. -/
theorem safeA_tail2D : safeNo markerA tail2D := by decide

/-- Markup closing one block is safe. -/
theorem safeA_tail3D : safeNo markerA tail3D := by decide

/-- The document footer is safe. -/
theorem safeA_footerD : safeNo markerA footerD := by decide

/-- The document header before the date is safe. -/
theorem safeA_headerPreD : safeNo markerA htmlHeaderPre.data := by decide

/-- The document header after the date is safe. -/
theorem safeA_headerPostD : safeNo markerA htmlHeaderPost.data := by decide

/-- The heading delimiter is nonempty. -/
theorem markerA_ne_nil : markerA ≠ [] := by decide

/-- Each rendered block contributes at least one character. -/
theorem renderBlocks_data_length (articles : List Article) :
    articles.length ≤ (renderBlocks articles).data.length := by
  induction articles with
  | nil => simp [renderBlocks]
  | cons a rest ih =>
    have h13 : blockIndentD.length = 13 := by decide
    have hb : 1 ≤ (articleBlock a).data.length := by
      rw [articleBlock_data]
      simp only [List.length_append, h13]
      omega
    rw [renderBlocks_data_cons]
    simp only [List.length_cons, List.length_append]
    omega

/-- Scanning junk followed by the rendered blocks and the footer recovers
exactly the (title, source_link) data of the articles, provided the junk and
all fields are free of delimiter starts. -/
theorem extract_main (articles : List Article) :
    ∀ (n : Nat) (junk : List Char), articles.length ≤ n →
      (∀ a ∈ articles, benignArticle a) → safeNo markerA junk →
      extractPairsAux n (junk ++ ((renderBlocks articles).data ++ footerD)) =
        articles.map (fun a => (a.title.data, a.source_link.data)) := by
  induction articles with
  | nil =>
    intro n junk _ _ hjunk
    cases n with
    | zero => rfl
    | succ m =>
      have h0 : (renderBlocks []).data = [] := rfl
      rw [h0, List.nil_append]
      show extractPairsAux (m + 1) (junk ++ footerD) = []
      unfold extractPairsAux
      rw [splitFirst_none markerA_ne_nil (safeNo_append hjunk safeA_footerD)]
  | cons a rest ih =>
    intro n junk hn hben hjunk
    cases n with
    | zero => simp at hn
    | succ m =>
      obtain ⟨hbt, hbo, hbs, hbl⟩ := hben a (List.mem_cons_self a rest)
      rw [renderBlocks_data_cons, articleBlock_data]
      simp only [List.append_assoc]
      unfold extractPairsAux
      rw [splitFirst_pre2 hjunk safeA_indentD]
      dsimp only
      rw [splitFirst_pre (benign_safeNo_markerB hbl)]
      dsimp only
      rw [splitFirst_pre (benign_safeNo_markerC hbt)]
      dsimp only
      rw [ List.map_cons]
      congr 1
      have hjunk2 : safeNo markerA
          (tail1D ++ (a.one_liner.data ++ (tail2D ++ (a.summary.data ++ tail3D)))) :=
        safeNo_append safeA_tail1D (safeNo_append (benign_safeNo_markerA hbo)
          (safeNo_append safeA_tail2D
            (safeNo_append (benign_safeNo_markerA hbs) safeA_tail3D)))
      have hm : rest.length ≤ m := by
        simp only [List.length_cons] at hn
        omega
      have hres := ih m
        (tail1D ++ (a.one_liner.data ++ (tail2D ++ (a.summary.data ++ tail3D))))
        hm (fun b hb => hben b (List.mem_cons_of_mem a hb)) hjunk2
      simpa [List.append_assoc] using hres

/-- C7 is false as stated: a title containing anchor-closing markup is not
recovered by re-parsing the rendered document (the parser recovers a
truncated title instead), and when two articles share a one-liner value that
value occurs twice in the document, not exactly once. -/
theorem claim_C7_counterexample :
    extractPairs (formatNewsAsHtml "June 01, 2025"
        [Article.mk "Bad</a>x" "O1" "S1" "http://x"]) ≠
      [(("Bad</a>x" : String), ("http://x" : String))] ∧
    extractPairs (formatNewsAsHtml "June 01, 2025"
        [Article.mk "Bad</a>x" "O1" "S1" "http://x"]) =
      [(("Bad" : String), ("http://x" : String))] ∧
    countOccur "DUP".data (formatNewsAsHtml "June 01, 2025"
        [Article.mk "T1" "DUP" "S1" "http://x",
          Article.mk "T2" "DUP" "S2" "http://y"]).data = 2 := by
  refine ⟨by decide, by decide, by decide⟩

/-- C7 (amended): for every article sequence whose fields, and the date,
contain neither an angle bracket opener nor a double quote, re-parsing the
rendered HTML recovers exactly the (title, source_link) pairs of the input
articles, in input order. -/
theorem claim_C7_roundtrip (today_date : String) (articles : List Article)
    (htoday : benignStr today_date) (hben : ∀ a ∈ articles, benignArticle a) :
    extractPairs (formatNewsAsHtml today_date articles) =
      articles.map (fun a => (a.title, a.source_link)) := by
  cases articles with
  | nil =>
    have h : formatNewsAsHtml today_date [] = noArticlesHtml := rfl
    rw [h]
    decide
  | cons a rest =>
    have hft : htmlFooter.data = footerD := rfl
    have hfmt : formatNewsAsHtml today_date (a :: rest) =
        htmlHeaderPre ++ today_date ++ htmlHeaderPost ++
          renderBlocks (a :: rest) ++ htmlFooter := rfl
    have hdata : (formatNewsAsHtml today_date (a :: rest)).data =
        (htmlHeaderPre.data ++ (today_date.data ++ htmlHeaderPost.data)) ++
          ((renderBlocks (a :: rest)).data ++ footerD) := by
      rw [hfmt]
      simp [String.data_append, hft, List.append_assoc]
    have hlen : (a :: rest).length ≤
        ((htmlHeaderPre.data ++ (today_date.data ++ htmlHeaderPost.data)) ++
          ((renderBlocks (a :: rest)).data ++ footerD)).length := by
      have hrb := renderBlocks_data_length (a :: rest)
      simp only [List.length_append]
      omega
    have hjunk : safeNo markerA
        (htmlHeaderPre.data ++ (today_date.data ++ htmlHeaderPost.data)) :=
      safeNo_append safeA_headerPreD
        (safeNo_append (benign_safeNo_markerA htoday) safeA_headerPostD)
    have hmain := extract_main (a :: rest)
      ((htmlHeaderPre.data ++ (today_date.data ++ htmlHeaderPost.data)) ++
        ((renderBlocks (a :: rest)).data ++ footerD)).length
      (htmlHeaderPre.data ++ (today_date.data ++ htmlHeaderPost.data))
      hlen hben hjunk
    unfold extractPairs
    rw [hdata, hmain, List.map_map]
    rfl

/-- Witness for C7 (amended) with two benign articles. -/
theorem claim_C7_roundtrip_witness :
    extractPairs (formatNewsAsHtml "June 01, 2025"
        [Article.mk "T1" "O1" "S1" "http://x", Article.mk "T2" "O2" "S2" "http://y"]) =
      [Article.mk "T1" "O1" "S1" "http://x",
        Article.mk "T2" "O2" "S2" "http://y"].map (fun a => (a.title, a.source_link)) :=
  claim_C7_roundtrip "June 01, 2025"
    [Article.mk "T1" "O1" "S1" "http://x", Article.mk "T2" "O2" "S2" "http://y"]
    (by decide) (by decide)

end NewsBot
